import Mathlib

/-!
Shallow embedding of the room-booking engine of the Hajzi server.

Sources embedded here:
- src/src/models/RoomBooking.js
  (checkRoomAvailability, isOwnedByUser, isOwnedByHotelOwner,
   canBeCancelled, canBeModified, the nights computation of the
   pre-save price hook)
- src/unnamed/part_004, roomBookingController.js section
  (createRoomBooking, getBookingById, updateBooking, cancelBooking,
   updateBookingStatus, getCityAdminBookings)
- src/src/utils/response.js (createRoomBookingSchema date/occupancy rules)

Modelling conventions:
- Mongo ObjectIds become Nat; JS Date values become Int milliseconds
  since the epoch (JS Date arithmetic is millisecond arithmetic).
- The persistent store is a record of lists; Model.findById is
  List.find? on the id; findByIdAndUpdate is a map that replaces the
  matching document.  findByIdAndUpdate does not fire the mongoose
  save hook, which matters for the update paths below and is
  reflected by NOT re-running the hook logic there.
- Controller handlers become functions Store -> Except AppError
  (Booking x Store); an AppError carries the message and HTTP status
  of the corresponding next(new AppError(msg, code)) call.  An error
  result carries no store: the operation did not write.
- Floating-point divisions in the source are compared against integer
  constants only ((checkIn - now) / 3600000 > 24, Math.ceil(d / 86400000));
  for every integer millisecond quantity these comparisons coincide
  with exact integer comparisons, which is how they are embedded
  (hoursUntil > 24  iff  checkIn - now > 24 * 3600000, and
  Math.ceil(d / day) = (d + day - 1).fdiv day).
- Booking fields that carry free-form guest data (fullName, guestName,
  phoneNumber, discountCode, notes, ownerWhatsappLink) influence no
  branch of the logic under study and are omitted from the record.
-/

namespace Hajzi

/-- Milliseconds per hour, the 1000 * 60 * 60 of RoomBooking.js. -/
def msPerHour : Int := 3600000

/-- Milliseconds per day, the 1000 * 60 * 60 * 24 of RoomBooking.js. -/
def msPerDay : Int := 86400000

/-- Booking status enum of RoomBooking.js (schema field status). -/
inductive BookingStatus where
  | pending
  | confirmed
  | cancelled
  | rejected
deriving DecidableEq, Repr

/-- The status test ['pending', 'confirmed'].includes(status) used by
checkRoomAvailability and canBeCancelled. -/
def BookingStatus.isActive : BookingStatus → Bool
  | .pending => true
  | .confirmed => true
  | .cancelled => false
  | .rejected => false

/-- Hotel status enum of Hotel.js. -/
inductive HotelStatus where
  | pending
  | approved
  | rejected
deriving DecidableEq, Repr

/-- User role enum of User.js. -/
inductive Role where
  | super_admin
  | city_admin
  | owner
  | customer
deriving DecidableEq, Repr

/-- User record slice consumed by the booking subsystem. -/
structure User where
  id : Nat
  role : Role
  cityId : Option Nat
deriving DecidableEq, Repr

/-- Hotel record slice consumed by the booking subsystem. -/
structure Hotel where
  id : Nat
  ownerId : Nat
  cityId : Nat
  status : HotelStatus
  isVisible : Bool
deriving DecidableEq, Repr

/-- Room record slice consumed by the booking subsystem. -/
structure Room where
  id : Nat
  hotelId : Nat
  basePrice : Int
deriving DecidableEq, Repr

/-- Booking document (RoomBooking.js schema, logic-relevant fields). -/
structure Booking where
  id : Nat
  userId : Nat
  ownerId : Nat
  roomId : Nat
  hotelId : Nat
  checkIn : Int
  checkOut : Int
  price : Int
  status : BookingStatus
deriving DecidableEq, Repr

/-- The persistent store: one collection per model. -/
structure Store where
  users : List User
  hotels : List Hotel
  rooms : List Room
  bookings : List Booking
deriving DecidableEq, Repr

/-- AppError(message, statusCode) of src/utils/AppError.js. -/
structure AppError where
  message : String
  statusCode : Nat
deriving DecidableEq, Repr

/-- Math.ceil((checkOut - checkIn) / (1000 * 60 * 60 * 24)): the nights
computation shared by the controller (part_004 line 741) and the
pre-save hook (RoomBooking.js line 297).  For b > 0 and any integer d,
Math.ceil(d / b) equals (d + b - 1).fdiv b. -/
def nightsOf (checkIn checkOut : Int) : Int :=
  Int.fdiv (checkOut - checkIn + (msPerDay - 1)) msPerDay

/-- RoomBooking.checkRoomAvailability (RoomBooking.js lines 234-253):
all bookings of the room with status in pending/confirmed whose
half-open interval overlaps the candidate range, minus the excluded
booking when one is given. -/
def checkRoomAvailability (bookings : List Booking) (roomId : Nat)
    (checkIn checkOut : Int) (excludeBookingId : Option Nat) : List Booking :=
  bookings.filter (fun b =>
    b.roomId == roomId &&
    b.status.isActive &&
    decide (b.checkIn < checkOut) &&
    decide (b.checkOut > checkIn) &&
    (match excludeBookingId with
     | some ex => !(b.id == ex)
     | none => true))

/-- The callers test conflictingBookings.length > 0. -/
def hasConflict (bookings : List Booking) (roomId : Nat)
    (checkIn checkOut : Int) (excludeBookingId : Option Nat) : Bool :=
  !(checkRoomAvailability bookings roomId checkIn checkOut excludeBookingId).isEmpty

/-- booking.isOwnedByUser (RoomBooking.js lines 256-258). -/
def isOwnedByUser (b : Booking) (userId : Nat) : Bool :=
  b.userId == userId

/-- booking.isOwnedByHotelOwner (RoomBooking.js lines 261-263). -/
def isOwnedByHotelOwner (b : Booking) (ownerId : Nat) : Bool :=
  b.ownerId == ownerId

/-- booking.canBeCancelled (RoomBooking.js lines 266-273): status in
pending/confirmed and (checkIn - now) / 3600000 > 24, embedded as the
equivalent integer comparison on milliseconds. -/
def canBeCancelled (now : Int) (b : Booking) : Bool :=
  b.status.isActive && decide (b.checkIn - now > 24 * msPerHour)

/-- booking.canBeModified (RoomBooking.js lines 276-283): status is
pending and (checkIn - now) / 3600000 > 48, embedded as the equivalent
integer comparison on milliseconds. -/
def canBeModified (now : Int) (b : Booking) : Bool :=
  b.status == .pending && decide (b.checkIn - now > 48 * msPerHour)

/-- findByIdAndUpdate's effect on the bookings collection: replace the
document with the matching id. -/
def replaceBooking (bookings : List Booking) (bookingId : Nat) (b' : Booking) : List Booking :=
  bookings.map (fun b => if b.id == bookingId then b' else b)

/-- Request body of POST /api/room-bookings, logic-relevant fields
(the guest-detail strings are omitted, see the header comment). -/
structure CreateBody where
  roomId : Nat
  checkIn : Int
  checkOut : Int
  adults : Int
  children : Int
deriving DecidableEq, Repr

/-- createRoomBooking (part_004 lines 661-792).  The fresh document id
is passed in (Mongo would mint an ObjectId).  The route middleware
requireRole('customer') restricts the principal to customers, and the
mongoose save hook re-runs the same availability query, the same
price formula and the room/hotel/owner consistency checks on exactly
the values written here, so those duplicate checks do not alter the
result and are not repeated. -/
def createRoomBooking (st : Store) (userId : Nat) (body : CreateBody)
    (freshId : Nat) : Except AppError (Booking × Store) :=
  match st.rooms.find? (fun r => r.id == body.roomId) with
  | none => .error ⟨"Room not found", 404⟩
  | some room =>
    match st.hotels.find? (fun h => h.id == room.hotelId) with
    | none => .error ⟨"Hotel not found", 404⟩
    | some hotel =>
      if !(hotel.isVisible) || !(hotel.status == .approved) then
        .error ⟨"Hotel is not available for booking", 400⟩
      else
        match st.users.find? (fun u => u.id == hotel.ownerId) with
        | none => .error ⟨"Hotel owner not found", 400⟩
        | some owner =>
          if !(owner.role == .owner) then
            .error ⟨"Hotel owner does not have owner role", 400⟩
          else if hasConflict st.bookings body.roomId body.checkIn body.checkOut none then
            .error ⟨"Room is not available for the selected dates", 400⟩
          else
            let nights := nightsOf body.checkIn body.checkOut
            let b : Booking :=
              { id := freshId
                userId := userId
                ownerId := owner.id
                roomId := body.roomId
                hotelId := room.hotelId
                checkIn := body.checkIn
                checkOut := body.checkOut
                price := room.basePrice * nights
                status := .pending }
            .ok (b, { st with bookings := st.bookings ++ [b] })

/-- createRoomBookingSchema (response.js lines 693-752), the
non-string rules: checkIn strictly after now, checkOut strictly after
checkIn, adults an integer in 1..20, children an integer in 0..10. -/
def validCreateRoomBooking (now : Int) (body : CreateBody) : Bool :=
  decide (body.checkIn > now) &&
  decide (body.checkOut > body.checkIn) &&
  decide (1 ≤ body.adults) && decide (body.adults ≤ 20) &&
  decide (0 ≤ body.children) && decide (body.children ≤ 10)

/-- POST /api/room-bookings as routed (part_008 lines 28-32):
validateCreateRoomBooking answers 400 "Validation error" before the
controller runs; otherwise the controller handles the request. -/
def createBookingRoute (now : Int) (st : Store) (userId : Nat)
    (body : CreateBody) (freshId : Nat) : Except AppError (Booking × Store) :=
  if validCreateRoomBooking now body then
    createRoomBooking st userId body freshId
  else
    .error ⟨"Validation error", 400⟩

/-- getBookingById (part_004 lines 866-904). -/
def getBookingById (st : Store) (principalId : Nat) (principalRole : Role)
    (bookingId : Nat) : Except AppError Booking :=
  match st.bookings.find? (fun b => b.id == bookingId) with
  | none => .error ⟨"Booking not found", 404⟩
  | some booking =>
    if isOwnedByUser booking principalId ||
       isOwnedByHotelOwner booking principalId ||
       principalRole == .super_admin then
      .ok booking
    else
      .error ⟨"You do not have permission to view this booking", 403⟩

/-- Request body of PUT /api/room-bookings/:id.  The controller
destructures status, price, userId, ownerId out of req.body and never
reads them; hotelId is NOT destructured out, so a client-supplied
hotelId flows into the stored update.  updateRoomBookingSchema
(response.js lines 754-785) allows hotelId in this body. -/
structure UpdateBody where
  checkIn : Option Int
  checkOut : Option Int
  roomId : Option Nat
  hotelId : Option Nat
  status : Option BookingStatus
  price : Option Int
  userId : Option Nat
  ownerId : Option Nat
deriving DecidableEq, Repr

/-- updateBooking (part_004 lines 909-975).  findByIdAndUpdate sets
exactly the surviving body fields (plus the recomputed price when
dates or room were supplied); it fires no save hook, so ownerId and
the room/hotel consistency checks of the model hook do not run here.
The source reads room.basePrice without a null check after the
availability test; a missing room there would raise a TypeError,
embedded as the 500 branch. -/
def updateBooking (now : Int) (st : Store) (principalId : Nat)
    (bookingId : Nat) (body : UpdateBody) : Except AppError (Booking × Store) :=
  match st.bookings.find? (fun b => b.id == bookingId) with
  | none => .error ⟨"Booking not found", 404⟩
  | some booking =>
    if !(isOwnedByUser booking principalId) then
      .error ⟨"You can only update your own bookings", 403⟩
    else if !(canBeModified now booking) then
      .error ⟨"This booking cannot be modified. Check-in is too soon or booking is not in pending status", 400⟩
    else if body.checkIn.isSome || body.checkOut.isSome || body.roomId.isSome then
      let checkInDate := body.checkIn.getD booking.checkIn
      let checkOutDate := body.checkOut.getD booking.checkOut
      let roomId := body.roomId.getD booking.roomId
      if hasConflict st.bookings roomId checkInDate checkOutDate (some bookingId) then
        .error ⟨"Room is not available for the selected dates", 400⟩
      else
        match st.rooms.find? (fun r => r.id == roomId) with
        | none => .error ⟨"TypeError: cannot read basePrice of null", 500⟩
        | some room =>
          let nights := nightsOf checkInDate checkOutDate
          let b' : Booking :=
            { booking with
                checkIn := checkInDate
                checkOut := checkOutDate
                roomId := roomId
                hotelId := body.hotelId.getD booking.hotelId
                price := room.basePrice * nights }
          .ok (b', { st with bookings := replaceBooking st.bookings bookingId b' })
    else
      let b' : Booking := { booking with hotelId := body.hotelId.getD booking.hotelId }
      .ok (b', { st with bookings := replaceBooking st.bookings bookingId b' })

/-- cancelBooking (part_004 lines 980-1012). -/
def cancelBooking (now : Int) (st : Store) (principalId : Nat)
    (bookingId : Nat) : Except AppError (Booking × Store) :=
  match st.bookings.find? (fun b => b.id == bookingId) with
  | none => .error ⟨"Booking not found", 404⟩
  | some booking =>
    if !(isOwnedByUser booking principalId) then
      .error ⟨"You can only cancel your own bookings", 403⟩
    else if !(canBeCancelled now booking) then
      .error ⟨"This booking cannot be cancelled. Check-in is too soon", 400⟩
    else
      let b' : Booking := { booking with status := .cancelled }
      .ok (b', { st with bookings := replaceBooking st.bookings bookingId b' })

/-- updateBookingStatus (part_004 lines 1070-1106).  The source checks
only that the requested status is one of the four enum values (which
the BookingStatus type makes inherent) and then writes it with
findByIdAndUpdate; the current status of the booking is never
consulted. -/
def updateBookingStatus (st : Store) (principalId : Nat) (principalRole : Role)
    (bookingId : Nat) (status : BookingStatus) : Except AppError (Booking × Store) :=
  match st.bookings.find? (fun b => b.id == bookingId) with
  | none => .error ⟨"Booking not found", 404⟩
  | some booking =>
    if !(isOwnedByHotelOwner booking principalId || principalRole == .super_admin) then
      .error ⟨"You can only update bookings for your hotels", 403⟩
    else
      let b' : Booking := { booking with status := status }
      .ok (b', { st with bookings := replaceBooking st.bookings bookingId b' })

/-- getCityAdminBookings (part_004 lines 1212-1299), reached through
requireRole('city_admin') (part_008 lines 78-81).  The status/search
narrowing filters and the pagination, which only shrink the result
set, are omitted.  The hotel-id set is resolved first, then bookings
are filtered by membership of their hotelId in that set, exactly as
the source queries Hotel.find then RoomBooking.find. -/
def getCityAdminBookings (st : Store) (principal : User) :
    Except AppError (List Booking) :=
  if principal.role == .city_admin && principal.cityId == none then
    .error ⟨"City admin must have an assigned city", 403⟩
  else
    let hotelIds := (st.hotels.filter (fun h => some h.cityId == principal.cityId)).map (fun h => h.id)
    .ok (st.bookings.filter (fun b => hotelIds.contains b.hotelId))

/-- The pairwise half-open non-overlap invariant over the active
(pending/confirmed) bookings of each room: the central consistency
property of the subsystem. -/
def roomInvariant (bookings : List Booking) : Prop :=
  ∀ b1 ∈ bookings, ∀ b2 ∈ bookings,
    b1.id ≠ b2.id → b1.roomId = b2.roomId →
    b1.status.isActive = true → b2.status.isActive = true →
    ¬(b1.checkIn < b2.checkOut ∧ b2.checkIn < b1.checkOut)

instance (bookings : List Booking) : Decidable (roomInvariant bookings) := by
  unfold roomInvariant
  infer_instance

instance {ε α : Type} [DecidableEq ε] [DecidableEq α] : DecidableEq (Except ε α) :=
  fun a b =>
    match a, b with
    | .ok x, .ok y =>
      if h : x = y then isTrue (by rw [h]) else isFalse (by intro hc; cases hc; exact h rfl)
    | .error e, .error f =>
      if h : e = f then isTrue (by rw [h]) else isFalse (by intro hc; cases hc; exact h rfl)
    | .ok _, .error _ => isFalse (by intro hc; cases hc)
    | .error _, .ok _ => isFalse (by intro hc; cases hc)

/-! ## Concrete data used by the counterexample-style claims -/

/-- Customer user shared by the concrete scenarios. -/
def demoCustomer : User := ⟨1, .customer, none⟩

/-- Owner of hotel 1 in the concrete scenarios. -/
def demoOwner : User := ⟨10, .owner, none⟩

/-- Owner of hotel 2 in the concrete scenarios. -/
def demoOwner2 : User := ⟨20, .owner, none⟩

/-- Hotel 1, approved and visible, owned by user 10, in city 100. -/
def demoHotel : Hotel := ⟨1, 10, 100, .approved, true⟩

/-- Hotel 2, approved and visible, owned by user 20, in city 200. -/
def demoHotel2 : Hotel := ⟨2, 20, 200, .approved, true⟩

/-- Room 1 of hotel 1, basePrice 100. -/
def demoRoom : Room := ⟨1, 1, 100⟩

/-- Room 2 of hotel 2, basePrice 50. -/
def demoRoom2 : Room := ⟨2, 2, 50⟩

/-- Confirmed booking of room 1 over days [10, 12). -/
def c1Confirmed : Booking := ⟨1, 1, 10, 1, 1, 10 * msPerDay, 12 * msPerDay, 200, .confirmed⟩

/-- Cancelled booking of room 1 over days [11, 13): it overlaps
c1Confirmed but, being cancelled, does not block it. -/
def c1Cancelled : Booking := ⟨2, 1, 10, 1, 1, 11 * msPerDay, 13 * msPerDay, 200, .cancelled⟩

/-- Store for claim C1: one room with one confirmed and one
overlapping cancelled booking; the active set is non-overlapping. -/
def c1Store : Store :=
  ⟨[demoCustomer, demoOwner], [demoHotel], [demoRoom], [c1Confirmed, c1Cancelled]⟩

/-- Cancelled booking of room 1 over days [20, 22), overlapping no
other booking (for claim C3 the dates are irrelevant). -/
def c3Cancelled : Booking := ⟨2, 1, 10, 1, 1, 20 * msPerDay, 22 * msPerDay, 200, .cancelled⟩

/-- Store for claim C3: a confirmed and a cancelled booking. -/
def c3Store : Store :=
  ⟨[demoCustomer, demoOwner], [demoHotel], [demoRoom], [c1Confirmed, c3Cancelled]⟩

/-- Pending booking of room 1 (hotel 1, owner 10) over days [10, 12),
modifiable at now = 0 (240 hours before check-in). -/
def c4Booking : Booking := ⟨1, 1, 10, 1, 1, 10 * msPerDay, 12 * msPerDay, 200, .pending⟩

/-- Store for claim C4: two hotels with different owners, one room
each, and one pending booking on room 1. -/
def c4Store : Store :=
  ⟨[demoCustomer, demoOwner, demoOwner2], [demoHotel, demoHotel2],
   [demoRoom, demoRoom2], [c4Booking]⟩

/-- Update request that moves the booking to room 2 (a room of the
other hotel) and touches nothing else. -/
def c4Body : UpdateBody := ⟨none, none, some 2, none, none, none, none, none⟩

/-! ## Helper lemmas shared by several claims -/

theorem isActive_iff (s : BookingStatus) :
    s.isActive = true ↔ (s = .pending ∨ s = .confirmed) := by
  cases s <;> simp [BookingStatus.isActive]

theorem mem_checkRoomAvailability {bs : List Booking} {rid : Nat} {ci co : Int}
    {ex : Option Nat} {b : Booking} :
    b ∈ checkRoomAvailability bs rid ci co ex ↔
      b ∈ bs ∧ b.roomId = rid ∧ (b.status = .pending ∨ b.status = .confirmed) ∧
      b.checkIn < co ∧ ci < b.checkOut ∧ (∀ e, ex = some e → b.id ≠ e) := by
  unfold checkRoomAvailability
  rw [List.mem_filter]
  cases ex <;> simp [isActive_iff] <;> tauto

theorem canBeCancelled_iff (now : Int) (b : Booking) :
    canBeCancelled now b = true ↔
      ((b.status = .pending ∨ b.status = .confirmed) ∧
       b.checkIn - now > 24 * msPerHour) := by
  simp [canBeCancelled, isActive_iff]

theorem canBeModified_iff (now : Int) (b : Booking) :
    canBeModified now b = true ↔
      (b.status = .pending ∧ b.checkIn - now > 48 * msPerHour) := by
  simp [canBeModified]

/-! ## Claim theorems -/

/-- Claim C2: hasConflict(roomId, checkIn, checkOut, excludeBookingId?)
is true iff some booking for that room, other than the excluded one,
has status pending or confirmed and satisfies the half-open overlap
predicate existing.checkIn < candidate.checkOut and
candidate.checkIn < existing.checkOut.  The "in particular" parts of
the claim are immediate consequences: a booking with checkIn equal to
the candidate checkOut fails existing.checkIn < candidate.checkOut,
and a cancelled or rejected booking fails the status disjunct. -/
theorem c2_hasConflict_iff_overlap :
    ∀ (bs : List Booking) (rid : Nat) (ci co : Int) (ex : Option Nat),
      hasConflict bs rid ci co ex = true ↔
        ∃ b ∈ bs,
          b.roomId = rid ∧
          (∀ e, ex = some e → b.id ≠ e) ∧
          (b.status = .pending ∨ b.status = .confirmed) ∧
          b.checkIn < co ∧ ci < b.checkOut := by
  intro bs rid ci co ex
  unfold hasConflict
  constructor
  · intro h
    have hne : checkRoomAvailability bs rid ci co ex ≠ [] := by
      intro hnil
      rw [hnil] at h
      simp at h
    obtain ⟨b, hb⟩ := List.exists_mem_of_ne_nil _ hne
    obtain ⟨hbs, hrid, hst, h1, h2, hex⟩ := mem_checkRoomAvailability.mp hb
    exact ⟨b, hbs, hrid, hex, hst, h1, h2⟩
  · rintro ⟨b, hbs, hrid, hex, hst, h1, h2⟩
    have hb : b ∈ checkRoomAvailability bs rid ci co ex :=
      mem_checkRoomAvailability.mpr ⟨hbs, hrid, hst, h1, h2, hex⟩
    have hne := List.ne_nil_of_mem hb
    simp [List.isEmpty_iff, hne]

/-- Concrete instances of claim C2, obtained from
c2_hasConflict_iff_overlap: a range overlapping the confirmed booking
of c1Store conflicts, while the adjacent range starting exactly at
its checkOut does not. -/
theorem c2_hasConflict_witness :
    hasConflict [c1Confirmed] 1 (11 * msPerDay) (13 * msPerDay) none = true ∧
    hasConflict [c1Confirmed] 1 (12 * msPerDay) (14 * msPerDay) none = false := by
  constructor
  · exact (c2_hasConflict_iff_overlap [c1Confirmed] 1 (11 * msPerDay) (13 * msPerDay) none).mpr
      ⟨c1Confirmed, by decide, by decide, fun e he => Option.noConfusion he,
        by decide, by decide, by decide⟩
  · by_contra hc
    rw [Bool.not_eq_false] at hc
    obtain ⟨b, hb, hrid, hex, hst, h1', h2'⟩ :=
      (c2_hasConflict_iff_overlap [c1Confirmed] 1 (12 * msPerDay) (14 * msPerDay) none).mp hc
    rw [List.mem_singleton] at hb
    subst hb
    exact absurd h2' (by decide)

/-- Claim C1: the pairwise non-overlap invariant over active bookings
is NOT preserved by every operation of the subsystem.  In a store that
satisfies the invariant, updateBookingStatus (SetBookingStatus) run by
the hotel owner on a cancelled booking that overlaps a confirmed one
succeeds — it never consults the current status or re-checks
availability — and the resulting store violates the invariant. -/
theorem c1_setStatus_breaks_room_invariant :
    roomInvariant c1Store.bookings ∧
    updateBookingStatus c1Store 10 .owner 2 .confirmed =
      .ok ({ c1Cancelled with status := .confirmed },
           { c1Store with bookings := [c1Confirmed, { c1Cancelled with status := .confirmed }] }) ∧
    ¬ roomInvariant [c1Confirmed, { c1Cancelled with status := .confirmed }] := by
  refine ⟨by decide, by decide, by decide⟩

/-- Claim C3: updateBookingStatus with the booking's current status is
indeed a no-op returning the unchanged booking and store (first
conjunct, the part of the claim the code satisfies); but on a
cancelled booking the same operation requested to set confirmed also
succeeds and reanimates the booking, where the claim requires an
InvalidTransition failure leaving the booking unchanged (second
conjunct, the divergence). -/
theorem c3_sameStatus_noop_terminal_unguarded :
    updateBookingStatus c3Store 10 .owner 1 .confirmed = .ok (c1Confirmed, c3Store) ∧
    updateBookingStatus c3Store 10 .owner 2 .confirmed =
      .ok ({ c3Cancelled with status := .confirmed },
           { c3Store with bookings := [c1Confirmed, { c3Cancelled with status := .confirmed }] }) := by
  refine ⟨by decide, by decide⟩

/-- Claim C4: an updateBooking that changes roomId to a room of a
different hotel succeeds but stores the booking with the OLD hotelId
and ownerId: the associations are left stale from creation instead of
being re-derived from the new roomId (room 2 belongs to hotel 2,
owned by user 20, yet the stored booking keeps hotelId 1 and
ownerId 10). -/
theorem c4_update_roomId_leaves_stale_associations :
    updateBooking 0 c4Store 1 1 c4Body =
      .ok ({ c4Booking with roomId := 2, price := 100 },
           { c4Store with bookings := [{ c4Booking with roomId := 2, price := 100 }] }) ∧
    (c4Store.rooms.find? (fun r => r.id == 2)).map Room.hotelId = some 2 ∧
    ({ c4Booking with roomId := 2, price := 100 } : Booking).hotelId = 1 ∧
    ({ c4Booking with roomId := 2, price := 100 } : Booking).ownerId = 10 := by
  refine ⟨by decide, by decide, by decide, by decide⟩

/-- Claim C5: for a booking present in the store, cancelBooking
succeeds exactly when the principal is the customer who owns it, its
status is pending or confirmed, and check-in is strictly more than 24
hours away; on success the returned booking is the original with
status cancelled. -/
theorem c5_cancelBooking_characterization :
    ∀ (now : Int) (st : Store) (pid bid : Nat) (bk : Booking),
      st.bookings.find? (fun b => b.id == bid) = some bk →
      ((∃ b' st', cancelBooking now st pid bid = .ok (b', st')) ↔
        (bk.userId = pid ∧ (bk.status = .pending ∨ bk.status = .confirmed) ∧
         bk.checkIn - now > 24 * msPerHour)) ∧
      (∀ b' st', cancelBooking now st pid bid = .ok (b', st') →
        b' = { bk with status := .cancelled } ∧ b'.status = .cancelled) := by
  intro now st pid bid bk hfind
  have hred : cancelBooking now st pid bid =
      (if !(isOwnedByUser bk pid) then
        (.error ⟨"You can only cancel your own bookings", 403⟩ : Except AppError (Booking × Store))
       else if !(canBeCancelled now bk) then
        .error ⟨"This booking cannot be cancelled. Check-in is too soon", 400⟩
       else
        .ok ({ bk with status := .cancelled },
             { st with bookings := replaceBooking st.bookings bid { bk with status := .cancelled } })) := by
    unfold cancelBooking
    rw [hfind]
  by_cases h1 : isOwnedByUser bk pid
  · by_cases h2 : canBeCancelled now bk
    · have hu : bk.userId = pid := by simpa [isOwnedByUser] using h1
      obtain ⟨hs, ht⟩ := (canBeCancelled_iff now bk).mp h2
      have hok : cancelBooking now st pid bid =
          .ok ({ bk with status := .cancelled },
               { st with bookings := replaceBooking st.bookings bid { bk with status := .cancelled } }) := by
        rw [hred]; simp [h1, h2]
      refine ⟨⟨fun _ => ⟨hu, hs, ht⟩, fun _ => ⟨_, _, hok⟩⟩, ?_⟩
      intro b' st' hok'
      rw [hok] at hok'
      simp only [Except.ok.injEq, Prod.mk.injEq] at hok'
      obtain ⟨hb, -⟩ := hok'
      subst hb
      exact ⟨rfl, rfl⟩
    · refine ⟨⟨?_, ?_⟩, ?_⟩
      · rintro ⟨b', st', hok⟩
        rw [hred] at hok
        simp [h1, h2] at hok
      · rintro ⟨hu, hs, ht⟩
        exact absurd ((canBeCancelled_iff now bk).mpr ⟨hs, ht⟩) h2
      · intro b' st' hok
        rw [hred] at hok
        simp [h1, h2] at hok
  · refine ⟨⟨?_, ?_⟩, ?_⟩
    · rintro ⟨b', st', hok⟩
      rw [hred] at hok
      simp [h1] at hok
    · rintro ⟨hu, hs, ht⟩
      exact absurd (by simp [isOwnedByUser, hu]) h1
    · intro b' st' hok
      rw [hred] at hok
      simp [h1] at hok

/-- Concrete instances of claim C5, obtained from
c5_cancelBooking_characterization: the confirmed booking of c1Store
can be cancelled by its customer 30 hours before check-in, and cannot
be cancelled by the same customer 10 hours before check-in. -/
theorem c5_cancelBooking_witness :
    (∃ b' st', cancelBooking (10 * msPerDay - 30 * msPerHour) c1Store 1 1 = .ok (b', st')) ∧
    ¬(∃ b' st', cancelBooking (10 * msPerDay - 10 * msPerHour) c1Store 1 1 = .ok (b', st')) := by
  constructor
  · exact ((c5_cancelBooking_characterization (10 * msPerDay - 30 * msPerHour)
      c1Store 1 1 c1Confirmed (by decide)).1).mpr (by decide)
  · intro hex
    have h := ((c5_cancelBooking_characterization (10 * msPerDay - 10 * msPerHour)
      c1Store 1 1 c1Confirmed (by decide)).1).mp hex
    exact absurd h.2.2 (by decide)

/-- Claim C8: for a booking present in the store, getBookingById
returns it exactly for the customer who made it, the hotel owner
recorded on it, or a super_admin principal, and fails with the 403
permission error for every other principal. -/
theorem c8_getBookingById_access :
    ∀ (st : Store) (pid : Nat) (role : Role) (bid : Nat) (bk : Booking),
      st.bookings.find? (fun b => b.id == bid) = some bk →
      getBookingById st pid role bid =
        (if bk.userId = pid ∨ bk.ownerId = pid ∨ role = .super_admin then .ok bk
         else .error ⟨"You do not have permission to view this booking", 403⟩) := by
  intro st pid role bid bk hfind
  have hred : getBookingById st pid role bid =
      (if isOwnedByUser bk pid || isOwnedByHotelOwner bk pid || role == .super_admin then
        (.ok bk : Except AppError Booking)
       else .error ⟨"You do not have permission to view this booking", 403⟩) := by
    unfold getBookingById
    rw [hfind]
  have hcond :
      (isOwnedByUser bk pid || isOwnedByHotelOwner bk pid || role == Role.super_admin) = true ↔
        (bk.userId = pid ∨ bk.ownerId = pid ∨ role = .super_admin) := by
    simp [isOwnedByUser, isOwnedByHotelOwner, or_assoc]
  rw [hred]
  by_cases h : bk.userId = pid ∨ bk.ownerId = pid ∨ role = .super_admin
  · rw [if_pos (hcond.mpr h), if_pos h]
  · rw [if_neg (fun hc => h (hcond.mp hc)), if_neg h]

/-- Concrete instance of claim C8: customer 2 (neither the booking
customer, nor the hotel owner, nor a super admin) is refused the
confirmed booking of c1Store. -/
theorem c8_getBookingById_witness :
    getBookingById c1Store 2 .customer 1 =
      .error ⟨"You do not have permission to view this booking", 403⟩ := by
  have h := c8_getBookingById_access c1Store 2 .customer 1 c1Confirmed (by decide)
  rw [h, if_neg (by decide)]

/-- Claim C10: the create route rejects any request whose checkIn is
at or before the current time with the 400 "Validation error" answer
of validateCreateRoomBooking, before the controller runs; no booking
is created (an error result carries no store write). -/
theorem c10_create_requires_future_checkIn :
    ∀ (now : Int) (st : Store) (uid : Nat) (body : CreateBody) (fid : Nat),
      body.checkIn ≤ now →
      createBookingRoute now st uid body fid = .error ⟨"Validation error", 400⟩ := by
  intro now st uid body fid h
  unfold createBookingRoute
  rw [if_neg]
  intro hval
  simp [validCreateRoomBooking] at hval
  exact absurd hval.1.1.1.1.1 (not_lt.mpr h)

/-- Concrete instance of claim C10: a request with checkIn equal to
the current instant is rejected as a validation error. -/
theorem c10_create_witness :
    createBookingRoute 0 c1Store 1 ⟨1, 0, 86400000, 2, 0⟩ 99 =
      .error ⟨"Validation error", 400⟩ :=
  c10_create_requires_future_checkIn 0 c1Store 1 ⟨1, 0, 86400000, 2, 0⟩ 99 (by decide)

/-- Claim C9: for a city_admin principal, getCityAdminBookings fails
with the 403 error when the principal has no assigned city, and
otherwise returns only bookings whose hotelId belongs to a hotel of
the principal's city (the hotel-id set is resolved first, then
bookings are filtered by it); when hotel ids are unique, no booking
of a hotel in a different city is ever returned. -/
theorem c9_cityAdmin_scoped :
    ∀ (st : Store) (p : User), p.role = .city_admin →
      (p.cityId = none →
        getCityAdminBookings st p = .error ⟨"City admin must have an assigned city", 403⟩) ∧
      (∀ c, p.cityId = some c →
        ∃ bs, getCityAdminBookings st p = .ok bs ∧
          (∀ b ∈ bs, b ∈ st.bookings ∧ ∃ h ∈ st.hotels, h.id = b.hotelId ∧ h.cityId = c) ∧
          ((st.hotels.map Hotel.id).Nodup →
            ∀ b ∈ bs, ∀ h ∈ st.hotels, h.id = b.hotelId → h.cityId = c)) := by
  intro st p hrole
  constructor
  · intro hnone
    unfold getCityAdminBookings
    rw [if_pos (by simp [hrole, hnone])]
  · intro c hc
    have hfilter : ∀ b ∈ st.bookings.filter (fun b =>
        (((st.hotels.filter (fun h => some h.cityId == p.cityId)).map (fun h => h.id)).contains b.hotelId)),
        b ∈ st.bookings ∧ ∃ h ∈ st.hotels, h.id = b.hotelId ∧ h.cityId = c := by
      intro b hb
      rw [List.mem_filter] at hb
      obtain ⟨hbs, hcontains⟩ := hb
      refine ⟨hbs, ?_⟩
      have hmem : b.hotelId ∈ (st.hotels.filter (fun h => some h.cityId == p.cityId)).map (fun h => h.id) := by
        simpa using hcontains
      obtain ⟨h, hhf, hid⟩ := List.mem_map.mp hmem
      rw [List.mem_filter] at hhf
      obtain ⟨hhs, hcity⟩ := hhf
      rw [hc] at hcity
      exact ⟨h, hhs, hid, by simpa using hcity⟩
    refine ⟨_, ?_, hfilter, ?_⟩
    · unfold getCityAdminBookings
      rw [if_neg (by simp [hc])]
    · intro hnodup b hb h' hh' hid'
      obtain ⟨-, h, hhs, hid, hcity⟩ := hfilter b hb
      have : h = h' := List.inj_on_of_nodup_map hnodup hhs hh' (hid.trans hid'.symm)
      rw [← this]
      exact hcity

/-- Concrete instance of claim C9: a city_admin without an assigned
city is refused, and a city_admin of city 100 gets exactly the
bookings of the hotel in city 100. -/
theorem c9_cityAdmin_witness :
    getCityAdminBookings c4Store ⟨5, .city_admin, none⟩ =
      .error ⟨"City admin must have an assigned city", 403⟩ ∧
    (∀ bs, getCityAdminBookings c4Store ⟨5, .city_admin, some 100⟩ = .ok bs →
      ∀ b ∈ bs, ∀ h ∈ c4Store.hotels, h.id = b.hotelId → h.cityId = 100) := by
  constructor
  · exact (c9_cityAdmin_scoped c4Store ⟨5, .city_admin, none⟩ rfl).1 rfl
  · intro bs hbs b hb h hh hid
    obtain ⟨bs', hbs', -, hnodup⟩ := (c9_cityAdmin_scoped c4Store ⟨5, .city_admin, some 100⟩ rfl).2 100 rfl
    rw [hbs] at hbs'
    simp only [Except.ok.injEq] at hbs'
    rw [hbs'] at hb
    exact hnodup (by decide) b hb h hh hid

/-- Claim C7: a successful updateBooking implies the requester is the
customer who owns the booking, the booking is pending, and check-in
is strictly more than 48 hours away; the stored booking keeps its
status, userId and ownerId; when checkIn, checkOut or roomId is
supplied, availability was re-checked excluding the booking itself
and the price is recomputed from the effective room and dates; and
the result is insensitive to any client-supplied status, price,
userId or ownerId values. -/
theorem c7_updateBooking_guards :
    ∀ (now : Int) (st : Store) (pid bid : Nat) (body : UpdateBody) (bk b' : Booking) (st' : Store),
      st.bookings.find? (fun b => b.id == bid) = some bk →
      updateBooking now st pid bid body = .ok (b', st') →
        (bk.userId = pid ∧ bk.status = .pending ∧ bk.checkIn - now > 48 * msPerHour) ∧
        (b'.status = bk.status ∧ b'.userId = bk.userId ∧ b'.ownerId = bk.ownerId) ∧
        ((body.checkIn.isSome || body.checkOut.isSome || body.roomId.isSome) = true →
          hasConflict st.bookings (body.roomId.getD bk.roomId) (body.checkIn.getD bk.checkIn)
            (body.checkOut.getD bk.checkOut) (some bid) = false ∧
          ∃ room, st.rooms.find? (fun r => r.id == b'.roomId) = some room ∧
            b'.price = room.basePrice * nightsOf b'.checkIn b'.checkOut) ∧
        (∀ s p u o, updateBooking now st pid bid
            { body with status := s, price := p, userId := u, ownerId := o } = .ok (b', st')) := by
  intro now st pid bid body bk b' st' hfind hok
  have hignored : ∀ (s : Option BookingStatus) (p : Option Int) (u o : Option Nat),
      updateBooking now st pid bid { body with status := s, price := p, userId := u, ownerId := o } =
        updateBooking now st pid bid body := by
    obtain ⟨ci, co, ri, hi, s0, p0, u0, o0⟩ := body
    intro s p u o
    rfl
  have hok0 := hok
  unfold updateBooking at hok
  rw [hfind] at hok
  by_cases h1 : isOwnedByUser bk pid
  · by_cases h2 : canBeModified now bk
    · have hu : bk.userId = pid := by simpa [isOwnedByUser] using h1
      obtain ⟨hpend, h48⟩ := (canBeModified_iff now bk).mp h2
      by_cases h3 : (body.checkIn.isSome || body.checkOut.isSome || body.roomId.isSome) = true
      · by_cases h4 : hasConflict st.bookings (body.roomId.getD bk.roomId)
            (body.checkIn.getD bk.checkIn) (body.checkOut.getD bk.checkOut) (some bid) = true
        · simp [h1, h2, h3, h4] at hok
        · have h4' : hasConflict st.bookings (body.roomId.getD bk.roomId)
              (body.checkIn.getD bk.checkIn) (body.checkOut.getD bk.checkOut) (some bid) = false := by
            simpa using h4
          simp only [h1, h2, h3, h4', Bool.not_true, Bool.not_false, if_true, if_false,
            Bool.false_eq_true, if_neg, ite_false, ite_true] at hok
          rcases hroom : st.rooms.find? (fun r => r.id == body.roomId.getD bk.roomId) with _ | room
          · rw [hroom] at hok
            simp at hok
          · rw [hroom] at hok
            simp only [Except.ok.injEq, Prod.mk.injEq] at hok
            obtain ⟨hb', -⟩ := hok
            subst hb'
            refine ⟨⟨hu, hpend, h48⟩, ⟨rfl, rfl, rfl⟩, ?_, fun s p u o => (hignored s p u o).trans hok0⟩
            intro _
            exact ⟨h4', room, hroom, rfl⟩
      · simp only [h1, h2, h3, Bool.not_true, Bool.not_false, if_true, if_false,
          Bool.false_eq_true, ite_false, ite_true, eq_false h3] at hok
        simp only [Except.ok.injEq, Prod.mk.injEq] at hok
        obtain ⟨hb', -⟩ := hok
        subst hb'
        refine ⟨⟨hu, hpend, h48⟩, ⟨rfl, rfl, rfl⟩, ?_, fun s p u o => (hignored s p u o).trans hok0⟩
        intro h3'
        exact absurd h3' h3
    · simp [h1, h2] at hok
  · simp [h1] at hok

/-- Concrete instance of claim C7: the room-changing update of
c4Store keeps the booking pending and owned by customer 1. -/
theorem c7_updateBooking_witness :
    ({ c4Booking with roomId := 2, price := 100 } : Booking).status = c4Booking.status ∧
    c4Booking.userId = 1 ∧ c4Booking.status = .pending := by
  have h := c7_updateBooking_guards 0 c4Store 1 1 c4Body c4Booking
    { c4Booking with roomId := 2, price := 100 }
    { c4Store with bookings := [{ c4Booking with roomId := 2, price := 100 }] }
    (by decide) (by decide)
  exact ⟨h.2.1.1, h.1.1, h.1.2.1⟩

/-- Claim C6: every booking produced by createRoomBooking, and every
booking produced by an updateBooking that supplied checkIn, checkOut
or roomId, carries price = room.basePrice * nights for the room it
references, with nights = ceil((checkOut - checkIn) / 1 day);
deterministically, basePrice 100 with checkIn 2025-01-01 and
checkOut 2025-01-04 (epoch milliseconds) yields price 300. -/
theorem c6_price_formula :
    (∀ (st : Store) (uid : Nat) (body : CreateBody) (fid : Nat) (b' : Booking) (st' : Store),
      createRoomBooking st uid body fid = .ok (b', st') →
      ∃ room, st.rooms.find? (fun r => r.id == b'.roomId) = some room ∧
        b'.price = room.basePrice * nightsOf b'.checkIn b'.checkOut) ∧
    (∀ (now : Int) (st : Store) (pid bid : Nat) (body : UpdateBody) (b' : Booking) (st' : Store),
      updateBooking now st pid bid body = .ok (b', st') →
      (body.checkIn.isSome || body.checkOut.isSome || body.roomId.isSome) = true →
      ∃ room, st.rooms.find? (fun r => r.id == b'.roomId) = some room ∧
        b'.price = room.basePrice * nightsOf b'.checkIn b'.checkOut) ∧
    ((createRoomBooking c1Store 1 ⟨1, 1735689600000, 1735948800000, 2, 0⟩ 3).toOption.map
        (fun r => r.1.price) = some 300) ∧
    nightsOf 1735689600000 1735948800000 = 3 := by
  refine ⟨?_, ?_, by decide, by decide⟩
  · intro st uid body fid b' st' hok
    unfold createRoomBooking at hok
    rcases hroom : st.rooms.find? (fun r => r.id == body.roomId) with _ | room
    · simp [hroom] at hok
    · rcases hhotel : st.hotels.find? (fun h => h.id == room.hotelId) with _ | hotel
      · simp [hroom, hhotel] at hok
      · by_cases hvis : (!hotel.isVisible || !(hotel.status == HotelStatus.approved)) = true
        · simp [hroom, hhotel, hvis] at hok
        · rcases howner : st.users.find? (fun u => u.id == hotel.ownerId) with _ | owner
          · simp [hroom, hhotel, hvis, howner] at hok
          · by_cases hrole : (!(owner.role == Role.owner)) = true
            · simp [hroom, hhotel, hvis, howner, hrole] at hok
            · by_cases hconf : hasConflict st.bookings body.roomId body.checkIn body.checkOut none = true
              · simp [hroom, hhotel, hvis, howner, hrole, hconf] at hok
              · simp only [hroom, hhotel, howner, Bool.not_eq_true] at hvis hrole hconf
                simp only [hroom, hhotel, howner, hvis, hrole, hconf, Bool.false_eq_true,
                  if_false, ite_false, Except.ok.injEq, Prod.mk.injEq] at hok
                obtain ⟨hb', -⟩ := hok
                subst hb'
                exact ⟨room, hroom, rfl⟩
  · intro now st pid bid body b' st' hok h3
    rcases hfind : st.bookings.find? (fun b => b.id == bid) with _ | bk
    · unfold updateBooking at hok
      rw [hfind] at hok
      exact absurd hok (by simp)
    · unfold updateBooking at hok
      rw [hfind] at hok
      by_cases h1 : isOwnedByUser bk pid
      · by_cases h2 : canBeModified now bk
        · by_cases h4 : hasConflict st.bookings (body.roomId.getD bk.roomId)
              (body.checkIn.getD bk.checkIn) (body.checkOut.getD bk.checkOut) (some bid) = true
          · simp [h1, h2, h3, h4] at hok
          · have h4' : hasConflict st.bookings (body.roomId.getD bk.roomId)
                (body.checkIn.getD bk.checkIn) (body.checkOut.getD bk.checkOut) (some bid) = false := by
              simpa using h4
            simp only [h1, h2, h3, h4', Bool.not_true, Bool.not_false, if_true, if_false,
              Bool.false_eq_true, ite_false, ite_true] at hok
            rcases hroom : st.rooms.find? (fun r => r.id == body.roomId.getD bk.roomId) with _ | room
            · rw [hroom] at hok
              simp at hok
            · rw [hroom] at hok
              simp only [Except.ok.injEq, Prod.mk.injEq] at hok
              obtain ⟨hb', -⟩ := hok
              subst hb'
              exact ⟨room, hroom, rfl⟩
        · simp [h1, h2] at hok
      · simp [h1] at hok

/-- Concrete instance of claim C6, obtained from c6_price_formula:
the booking created on room 1 (basePrice 100) for 2025-01-01 to
2025-01-04 carries price 100 * 3. -/
theorem c6_price_witness :
    ∃ room, c1Store.rooms.find?
        (fun r => r.id == (⟨3, 1, 10, 1, 1, 1735689600000, 1735948800000, 300, .pending⟩ : Booking).roomId) = some room ∧
      (⟨3, 1, 10, 1, 1, 1735689600000, 1735948800000, 300, .pending⟩ : Booking).price =
        room.basePrice * nightsOf 1735689600000 1735948800000 := by
  have h := c6_price_formula.1 c1Store 1 ⟨1, 1735689600000, 1735948800000, 2, 0⟩ 3
    ⟨3, 1, 10, 1, 1, 1735689600000, 1735948800000, 300, .pending⟩
    { c1Store with bookings := c1Store.bookings ++ [⟨3, 1, 10, 1, 1, 1735689600000, 1735948800000, 300, .pending⟩] }
    (by decide)
  exact h

end Hajzi
